import Mathlib

/-!
Shallow embedding of the incident-report Telegram bot (`bot.py`): the
session state machine, the field extractor, the admin roster operations,
the submission broadcaster and the AI request assembly, together with
theorems checking the natural-language specification against this code.
-/

namespace HelpRoad

/-- Python `str.lower` restricted to the character ranges the program uses:
ASCII letters and the Cyrillic block (А..Я and Ё). -/
def lowerChar (c : Char) : Char :=
  if 65 ≤ c.toNat && c.toNat ≤ 90 then Char.ofNat (c.toNat + 32)
  else if 0x410 ≤ c.toNat && c.toNat ≤ 0x42F then Char.ofNat (c.toNat + 0x20)
  else if c.toNat == 0x401 then Char.ofNat 0x451
  else c

/-- Python `s.lower()` on a whole string. -/
def pyLower (s : String) : String := ⟨s.data.map lowerChar⟩

/-- `startsWith needle hay`: `needle` is an initial segment of `hay`. -/
def startsWith : List Char → List Char → Bool
  | [], _ => true
  | _ :: _, [] => false
  | a :: as, b :: bs => a == b && startsWith as bs

/-- Python's `needle in hay` substring test on character lists. -/
def containsSub (needle : List Char) : List Char → Bool
  | [] => needle.isEmpty
  | x :: t => startsWith needle (x :: t) || containsSub needle t

/-- Python's `needle in hay` on strings. -/
def hasSub (needle hay : String) : Bool := containsSub needle.data hay.data

/-- Python truthiness of an optional string field of the application dict:
`None` and `""` are falsy, every other string is truthy. -/
def isFilled : Option String → Bool
  | none => false
  | some s => !s.data.isEmpty

/-- The per-session report accumulator, `context.user_data["application"]`
as initialised in `start` (bot.py lines 320-328). -/
structure IncidentReport where
  timestamp : String
  location : Option String
  participants : Option String
  damage : Option String
  injuries : Option String
  photosCount : Nat
  contact : Option String
deriving DecidableEq

/-- `address_keywords` from `extract_info_from_message` (bot.py lines 187-198). -/
def address_keywords : List String :=
  ["улица", "ул.", "проспект", "пр.", "переулок", "пер.",
   "площадь", "шоссе", "дом", "д."]

/-- `damage_keywords` from `extract_info_from_message` (bot.py lines 214-224). -/
def damage_keywords : List String :=
  ["бампер", "фара", "крыло", "дверь", "капот",
   "повреждение", "царапина", "вмятина", "разбит"]

/-- Python `any(word in hay for word in kws)`. -/
def containsAnyKw (kws : List String) (hay : List Char) : Bool :=
  kws.any fun w => containsSub w.data hay

/-- One token of the phone regular expressions of bot.py lines 245-249:
a literal character, an optional separator `[\s-]?`, or a digit `\d`. -/
inductive PatTok where
  | lit (c : Char)
  | sep
  | digit
deriving DecidableEq

/-- Python `\s` (ASCII range) or the dash, the characters `[\s-]` accepts. -/
def isSepCh (c : Char) : Bool :=
  c == ' ' || c == '\t' || c == '\n' || c == '\r' || c == '\x0b' || c == '\x0c' || c == '-'

/-- The pattern `\+7[\s-]?\d{3}[\s-]?\d{3}[\s-]?\d{2}[\s-]?\d{2}`. -/
def phone1 : List PatTok :=
  [.lit '+', .lit '7', .sep, .digit, .digit, .digit, .sep, .digit, .digit, .digit,
   .sep, .digit, .digit, .sep, .digit, .digit]

/-- The pattern `8[\s-]?\d{3}[\s-]?\d{3}[\s-]?\d{2}[\s-]?\d{2}`. -/
def phone2 : List PatTok :=
  [.lit '8', .sep, .digit, .digit, .digit, .sep, .digit, .digit, .digit,
   .sep, .digit, .digit, .sep, .digit, .digit]

/-- The pattern `\d{11}`. -/
def phone3 : List PatTok := List.replicate 11 .digit

/-- Match a token list at the start of the text, returning the consumed
characters; the optional separator is greedy with backtracking, as in
Python's `re`. -/
def matchToks : List PatTok → List Char → Option (List Char)
  | [], _ => some []
  | .sep :: ts, [] => matchToks ts []
  | .sep :: ts, x :: xs =>
    if isSepCh x then
      match matchToks ts xs with
      | some r => some (x :: r)
      | none => matchToks ts (x :: xs)
    else matchToks ts (x :: xs)
  | .lit c :: ts, x :: xs =>
    if x == c then (matchToks ts xs).map (x :: ·) else none
  | .lit _ :: _, [] => none
  | .digit :: ts, x :: xs =>
    if x.isDigit then (matchToks ts xs).map (x :: ·) else none
  | .digit :: _, [] => none

/-- Python `re.search`: the match at the leftmost position where the
pattern matches, its matched substring (`match.group()`). -/
def searchPat (p : List PatTok) : List Char → Option (List Char)
  | [] => matchToks p []
  | x :: xs =>
    match matchToks p (x :: xs) with
    | some r => some r
    | none => searchPat p xs

/-- The `for pattern in phone_patterns: ... break` loop of
`extract_info_from_message`: the first pattern, in the fixed order, that
matches anywhere in the message wins. -/
def findPhone (s : List Char) : Option (List Char) :=
  match searchPat phone1 s with
  | some r => some r
  | none =>
    match searchPat phone2 s with
    | some r => some r
    | none => searchPat phone3 s

/-- The address block of `extract_info_from_message` (bot.py lines 186-201). -/
def updLocation (message : String) (app : IncidentReport) : IncidentReport :=
  if isFilled app.location then app
  else if containsAnyKw address_keywords (pyLower message).data then
    { app with location := some message }
  else app

/-- The participants block of `extract_info_from_message` (bot.py lines 204-210). -/
def updParticipants (message : String) (app : IncidentReport) : IncidentReport :=
  if isFilled app.participants then app
  else if hasSub "два" (pyLower message) || hasSub "2" message then
    { app with participants := some "2 автомобиля" }
  else if hasSub "три" (pyLower message) || hasSub "3" message then
    { app with participants := some "3 автомобиля" }
  else app

/-- The damage block of `extract_info_from_message` (bot.py lines 213-227). -/
def updDamage (message : String) (app : IncidentReport) : IncidentReport :=
  if isFilled app.damage then app
  else if containsAnyKw damage_keywords (pyLower message).data then
    { app with damage := some message }
  else app

/-- The injuries block of `extract_info_from_message` (bot.py lines 230-239). -/
def updInjuries (message : String) (app : IncidentReport) : IncidentReport :=
  if isFilled app.injuries then app
  else if hasSub "нет пострадавших" (pyLower message) ||
          hasSub "никто не пострадал" (pyLower message) then
    { app with injuries := some "Нет пострадавших" }
  else if hasSub "пострадал" (pyLower message) || hasSub "ранен" (pyLower message) then
    { app with injuries := some "Есть пострадавшие" }
  else app

/-- The phone block of `extract_info_from_message` (bot.py lines 242-255). -/
def updContact (message : String) (app : IncidentReport) : IncidentReport :=
  if isFilled app.contact then app
  else
    match findPhone message.data with
    | some r => { app with contact := some ⟨r⟩ }
    | none => app

/-- `extract_info_from_message` (bot.py lines 180-257): the five blocks run
in sequence on the mutable application dict. -/
def extract_info_from_message (message : String) (app : IncidentReport) : IncidentReport :=
  updContact message (updInjuries message (updDamage message
    (updParticipants message (updLocation message app))))

/-- The conversation states of bot.py lines 48-61 (`range(12)`), plus the
terminal `ConversationHandler.END`. -/
inductive BotState where
  | choosingMode
  | location
  | participants
  | damage
  | injuries
  | photos
  | contact
  | aiChat
  | confirm
  | adminMenu
  | adminAdd
  | adminRemove
  | ended
deriving DecidableEq

/-- The `missing` list computed by `finish_ai_application`
(bot.py lines 688-692): the names of the required fields that are unset. -/
def missingFields (app : IncidentReport) : List String :=
  (if !isFilled app.location then ["место ДТП"] else []) ++
  (if !isFilled app.contact then ["телефон"] else [])

/-- The submittability test of the code: `finish_ai_application` proceeds to
the confirm step exactly when its `missing` list is empty. -/
def submittable (app : IncidentReport) : Bool := (missingFields app).isEmpty

/-- `finish_ai_application` (bot.py lines 685-736): returns the next state
and the list of missing required fields named in the warning reply
(`"⚠️ Пожалуйста, укажите: " ++ ", ".join missing`); the list is empty on
the transition to the confirm step, where the summary is rendered instead. -/
def finish_ai_application (app : IncidentReport) : BotState × List String :=
  let missing := missingFields app
  if missing.isEmpty then (.confirm, []) else (.aiChat, missing)

/-- The finish trigger test of `ai_chat` (bot.py line 648):
`user_message.lower() in ["/finish", "завершить", "закончить", "готово"]`. -/
def isFinishCommand (msg : String) : Bool :=
  ["/finish", "завершить", "закончить", "готово"].contains (pyLower msg)

/-- `ai_chat` (bot.py lines 644-682), restricted to its state/report effect:
a finish-equivalent message delegates to `finish_ai_application`; any other
text runs the extractor and stays in the AI chat state.  The second
component is the resulting report, the third the missing-field names of the
finish reply (empty when not finishing or on success). -/
def ai_chat_step (msg : String) (app : IncidentReport) :
    BotState × IncidentReport × List String :=
  if isFinishCommand msg then
    let r := finish_ai_application app
    (r.1, app, r.2)
  else
    (.aiChat, extract_info_from_message msg app, [])

/-- `get_location` (bot.py lines 530-547): store the text verbatim, go to
the participants step. -/
def get_location (msg : String) (app : IncidentReport) : BotState × IncidentReport :=
  (.participants, { app with location := some msg })

/-- `get_participants` (bot.py lines 550-560). -/
def get_participants (msg : String) (app : IncidentReport) : BotState × IncidentReport :=
  (.damage, { app with participants := some msg })

/-- `get_damage` (bot.py lines 563-580). -/
def get_damage (msg : String) (app : IncidentReport) : BotState × IncidentReport :=
  (.injuries, { app with damage := some msg })

/-- `get_injuries` (bot.py lines 583-593). -/
def get_injuries (msg : String) (app : IncidentReport) : BotState × IncidentReport :=
  (.contact, { app with injuries := some msg })

/-- `get_contact` (bot.py lines 596-638): store the text, render the summary
and go to the confirm step. -/
def get_contact (msg : String) (app : IncidentReport) : BotState × IncidentReport :=
  (.confirm, { app with contact := some msg })

/-- Dispatch of a text message in a guided-form state, as wired in the
`ConversationHandler` states table (bot.py lines 830-834). -/
def guided_step (st : BotState) (msg : String) (app : IncidentReport) :
    BotState × IncidentReport :=
  match st with
  | .location => get_location msg app
  | .participants => get_participants msg app
  | .damage => get_damage msg app
  | .injuries => get_injuries msg app
  | .contact => get_contact msg app
  | s => (s, app)

/-- Run the guided form on a list of inputs, recording the state entered
after each input. -/
def guidedRun : List String → BotState → IncidentReport →
    List BotState × BotState × IncidentReport
  | [], st, app => ([], st, app)
  | m :: ms, st, app =>
    let s2 := guided_step st m app
    let r := guidedRun ms s2.1 s2.2
    (s2.1 :: r.1, r.2)

/-- The step order the specification prescribes for the guided form. -/
def specGuidedOrder : List BotState :=
  [.location, .participants, .damage, .injuries, .contact, .confirm]

/-- Outcome of `admin_remove_handler` on a numeric target. -/
inductive RemoveOutcome where
  | notFound
  | rejectedLastSelf
  | removed (newAdmins : List Int)
deriving DecidableEq

/-- `admin_remove_handler` (bot.py lines 493-517), on a numeric target:
absent target → not found; target equal to the acting user while the roster
has exactly one entry → guard rejection; otherwise remove the first
occurrence (Python `list.remove`) and persist the result. -/
def admin_remove_handler (admins : List Int) (actorId targetId : Int) : RemoveOutcome :=
  if targetId ∈ admins then
    if targetId = actorId ∧ admins.length = 1 then .rejectedLastSelf
    else .removed (admins.erase targetId)
  else .notFound

/-- Result record of `send_to_admins`: who received the message, the
`success_count`, the number of attempted deliveries, the roster size logged
as total, and whether the empty-roster warning branch was taken. -/
structure SendReport where
  delivered : List Int
  successCount : Nat
  attempts : Nat
  total : Nat
  warnedEmpty : Bool
deriving DecidableEq

/-- The `for admin_id in admins: try ... except` loop of `send_to_admins`
(bot.py lines 109-119): every recipient is attempted; `ok` tells whether
the send to a given recipient succeeds or raises. -/
def broadcastLoop (ok : Int → Bool) : List Int → List Int × Nat × Nat
  | [] => ([], 0, 0)
  | a :: rest =>
    let r := broadcastLoop ok rest
    if ok a then (a :: r.1, r.2.1 + 1, r.2.2 + 1) else (r.1, r.2.1, r.2.2 + 1)

/-- `send_to_admins` (bot.py lines 100-123): empty roster → warn and return
with zero attempts; otherwise attempt each recipient independently and log
`success_count` out of `len(admins)`. -/
def send_to_admins (admins : List Int) (ok : Int → Bool) : SendReport :=
  if admins.isEmpty then
    { delivered := [], successCount := 0, attempts := 0, total := 0, warnedEmpty := true }
  else
    let r := broadcastLoop ok admins
    { delivered := r.1, successCount := r.2.1, attempts := r.2.2,
      total := admins.length, warnedEmpty := false }

/-- The success acknowledgment of `confirm_application` (bot.py lines 770-774). -/
def successAck : String :=
  "✅ ЗАЯВКА УСПЕШНО ОТПРАВЛЕНА!\n\nНаш специалист свяжется с вами в ближайшее время."

/-- The cancellation reply of `confirm_application` (bot.py lines 779-782). -/
def cancelReply : String :=
  "❌ Заявка отменена. Если хотите начать заново — отправьте /start"

/-- Outcome of `confirm_application`: the broadcast result when one was
made, the reply shown to the submitting user, and the next state. -/
structure ConfirmOutcome where
  sent : Option SendReport
  reply : String
  next : BotState
deriving DecidableEq

/-- `confirm_application` (bot.py lines 742-783): an affirmative choice
(text containing `"✅"`) broadcasts to the roster and acknowledges success
unconditionally; any other text cancels.  Both end the session. -/
def confirm_application (choice : String) (admins : List Int) (ok : Int → Bool) :
    ConfirmOutcome :=
  if hasSub "✅" choice then
    { sent := some (send_to_admins admins ok), reply := successAck, next := .ended }
  else
    { sent := none, reply := cancelReply, next := .ended }

/-- One turn of the conversation history kept in
`context.user_data["ai_history"]`. -/
structure ChatTurn where
  role : String
  content : String
deriving DecidableEq

/-- The request assembly of `get_ai_response` (bot.py lines 157-159):
`[system prompt] + conversation_history[-10:] + [new user message]`.
Python `l[-10:]` is `l.drop (l.length - 10)`. -/
def get_ai_messages (systemPrompt : String) (history : List ChatTurn)
    (userMessage : String) : List ChatTurn :=
  ⟨"system", systemPrompt⟩ ::
    (history.drop (history.length - 10) ++ [⟨"user", userMessage⟩])

/-! ### Frame lemmas: each extractor block touches only its own field -/

section Frames

variable (m : String) (app : IncidentReport)

@[simp] lemma updLocation_participants :
    (updLocation m app).participants = app.participants := by
  unfold updLocation; repeat (first | rfl | split)

@[simp] lemma updLocation_damage : (updLocation m app).damage = app.damage := by
  unfold updLocation; repeat (first | rfl | split)

@[simp] lemma updLocation_injuries : (updLocation m app).injuries = app.injuries := by
  unfold updLocation; repeat (first | rfl | split)

@[simp] lemma updLocation_contact : (updLocation m app).contact = app.contact := by
  unfold updLocation; repeat (first | rfl | split)

@[simp] lemma updParticipants_location :
    (updParticipants m app).location = app.location := by
  unfold updParticipants; repeat (first | rfl | split)

@[simp] lemma updParticipants_damage :
    (updParticipants m app).damage = app.damage := by
  unfold updParticipants; repeat (first | rfl | split)

@[simp] lemma updParticipants_injuries :
    (updParticipants m app).injuries = app.injuries := by
  unfold updParticipants; repeat (first | rfl | split)

@[simp] lemma updParticipants_contact :
    (updParticipants m app).contact = app.contact := by
  unfold updParticipants; repeat (first | rfl | split)

@[simp] lemma updDamage_location : (updDamage m app).location = app.location := by
  unfold updDamage; repeat (first | rfl | split)

@[simp] lemma updDamage_participants :
    (updDamage m app).participants = app.participants := by
  unfold updDamage; repeat (first | rfl | split)

@[simp] lemma updDamage_injuries : (updDamage m app).injuries = app.injuries := by
  unfold updDamage; repeat (first | rfl | split)

@[simp] lemma updDamage_contact : (updDamage m app).contact = app.contact := by
  unfold updDamage; repeat (first | rfl | split)

@[simp] lemma updInjuries_location : (updInjuries m app).location = app.location := by
  unfold updInjuries; repeat (first | rfl | split)

@[simp] lemma updInjuries_participants :
    (updInjuries m app).participants = app.participants := by
  unfold updInjuries; repeat (first | rfl | split)

@[simp] lemma updInjuries_damage : (updInjuries m app).damage = app.damage := by
  unfold updInjuries; repeat (first | rfl | split)

@[simp] lemma updInjuries_contact : (updInjuries m app).contact = app.contact := by
  unfold updInjuries; repeat (first | rfl | split)

@[simp] lemma updContact_location : (updContact m app).location = app.location := by
  unfold updContact; repeat (first | rfl | split)

@[simp] lemma updContact_participants :
    (updContact m app).participants = app.participants := by
  unfold updContact; repeat (first | rfl | split)

@[simp] lemma updContact_damage : (updContact m app).damage = app.damage := by
  unfold updContact; repeat (first | rfl | split)

@[simp] lemma updContact_injuries : (updContact m app).injuries = app.injuries := by
  unfold updContact; repeat (first | rfl | split)

end Frames

/-! ### The values stored by the extractor are truthy -/

lemma pyLower_data (m : String) : (pyLower m).data = m.data.map lowerChar := rfl

lemma filled_of_addr_cond (m : String)
    (h : containsAnyKw address_keywords (pyLower m).data = true) :
    isFilled (some m) = true := by
  cases hm : m.data with
  | nil => rw [pyLower_data, hm] at h; exact absurd h (by decide)
  | cons a t => simp [isFilled, hm]

lemma filled_of_dmg_cond (m : String)
    (h : containsAnyKw damage_keywords (pyLower m).data = true) :
    isFilled (some m) = true := by
  cases hm : m.data with
  | nil => rw [pyLower_data, hm] at h; exact absurd h (by decide)
  | cons a t => simp [isFilled, hm]

lemma matchToks_lit_ne_nil (c : Char) (ts : List PatTok) (s : List Char)
    (r : List Char) (h : matchToks (.lit c :: ts) s = some r) : r ≠ [] := by
  cases s with
  | nil => simp [matchToks] at h
  | cons x xs =>
    simp only [matchToks] at h
    by_cases hc : (x == c) = true
    · rw [if_pos hc, Option.map_eq_some'] at h
      obtain ⟨a, _, ha⟩ := h
      rw [← ha]; simp
    · rw [if_neg hc] at h; exact absurd h (by simp)

lemma matchToks_digit_ne_nil (ts : List PatTok) (s : List Char)
    (r : List Char) (h : matchToks (.digit :: ts) s = some r) : r ≠ [] := by
  cases s with
  | nil => simp [matchToks] at h
  | cons x xs =>
    simp only [matchToks] at h
    by_cases hc : x.isDigit = true
    · rw [if_pos hc, Option.map_eq_some'] at h
      obtain ⟨a, _, ha⟩ := h
      rw [← ha]; simp
    · rw [if_neg hc] at h; exact absurd h (by simp)

lemma searchPat_some (p : List PatTok) (s : List Char) (r : List Char)
    (h : searchPat p s = some r) : ∃ t, matchToks p t = some r := by
  induction s with
  | nil => exact ⟨[], h⟩
  | cons x xs ih =>
    simp only [searchPat] at h
    cases hm : matchToks p (x :: xs) with
    | some r2 => rw [hm] at h; exact ⟨x :: xs, by rw [hm, ← h]⟩
    | none => rw [hm] at h; exact ih h

lemma findPhone_ne_nil (s : List Char) (r : List Char)
    (h : findPhone s = some r) : r ≠ [] := by
  unfold findPhone at h
  cases h1 : searchPat phone1 s with
  | some r1 =>
    rw [h1] at h
    simp only [Option.some.injEq] at h
    rw [← h]
    obtain ⟨t, ht⟩ := searchPat_some _ _ _ h1
    exact matchToks_lit_ne_nil '+' _ t r1 ht
  | none =>
    rw [h1] at h
    cases h2 : searchPat phone2 s with
    | some r2 =>
      rw [h2] at h
      simp only [Option.some.injEq] at h
      rw [← h]
      obtain ⟨t, ht⟩ := searchPat_some _ _ _ h2
      exact matchToks_lit_ne_nil '8' _ t r2 ht
    | none =>
      rw [h2] at h
      obtain ⟨t, ht⟩ := searchPat_some _ _ _ h
      have hp3 : phone3 = .digit :: List.replicate 10 .digit := rfl
      rw [hp3] at ht
      exact matchToks_digit_ne_nil _ t r ht

/-! ### Filled fields are never touched -/

lemma updLocation_of_filled (m : String) (app : IncidentReport)
    (h : isFilled app.location = true) : updLocation m app = app := by
  unfold updLocation; simp [h]

lemma updParticipants_of_filled (m : String) (app : IncidentReport)
    (h : isFilled app.participants = true) : updParticipants m app = app := by
  unfold updParticipants; simp [h]

lemma updDamage_of_filled (m : String) (app : IncidentReport)
    (h : isFilled app.damage = true) : updDamage m app = app := by
  unfold updDamage; simp [h]

lemma updInjuries_of_filled (m : String) (app : IncidentReport)
    (h : isFilled app.injuries = true) : updInjuries m app = app := by
  unfold updInjuries; simp [h]

lemma updContact_of_filled (m : String) (app : IncidentReport)
    (h : isFilled app.contact = true) : updContact m app = app := by
  unfold updContact; simp [h]

/-! ### Stability: a report already carrying an extractor output on a field
is left unchanged by that field's block for the same message -/

lemma updLocation_stable (m : String) (app app2 : IncidentReport)
    (h : app2.location = (updLocation m app).location) :
    updLocation m app2 = app2 := by
  by_cases h1 : isFilled app2.location = true
  · exact updLocation_of_filled m app2 h1
  · simp only [Bool.not_eq_true] at h1
    unfold updLocation
    by_cases hc : containsAnyKw address_keywords (pyLower m).data = true
    · exfalso
      unfold updLocation at h
      by_cases h2 : isFilled app.location = true
      · rw [if_pos h2] at h
        rw [h] at h1; rw [h2] at h1; exact Bool.true_eq_false.mp h1
      · rw [if_neg h2, if_pos hc] at h
        have hf := filled_of_addr_cond m hc
        rw [show ({ app with location := some m } : IncidentReport).location = some m
          from rfl] at h
        rw [h] at h1; rw [hf] at h1; exact Bool.true_eq_false.mp h1
    · simp [h1, hc]

lemma updParticipants_stable (m : String) (app app2 : IncidentReport)
    (h : app2.participants = (updParticipants m app).participants) :
    updParticipants m app2 = app2 := by
  by_cases h1 : isFilled app2.participants = true
  · exact updParticipants_of_filled m app2 h1
  · simp only [Bool.not_eq_true] at h1
    unfold updParticipants at h ⊢
    by_cases h2 : isFilled app.participants = true
    · rw [if_pos h2] at h
      rw [h] at h1; rw [h2] at h1; exact absurd h1 (by decide)
    · rw [if_neg h2] at h
      by_cases hc2 : (hasSub "два" (pyLower m) || hasSub "2" m) = true
      · rw [if_pos hc2] at h
        rw [show ({ app with participants := some "2 автомобиля" } :
          IncidentReport).participants = some "2 автомобиля" from rfl] at h
        rw [h] at h1; exact absurd h1 (by decide)
      · rw [if_neg hc2] at h
        by_cases hc3 : (hasSub "три" (pyLower m) || hasSub "3" m) = true
        · rw [if_pos hc3] at h
          rw [show ({ app with participants := some "3 автомобиля" } :
            IncidentReport).participants = some "3 автомобиля" from rfl] at h
          rw [h] at h1; exact absurd h1 (by decide)
        · simp [h1, hc2, hc3]

lemma updDamage_stable (m : String) (app app2 : IncidentReport)
    (h : app2.damage = (updDamage m app).damage) :
    updDamage m app2 = app2 := by
  by_cases h1 : isFilled app2.damage = true
  · exact updDamage_of_filled m app2 h1
  · simp only [Bool.not_eq_true] at h1
    unfold updDamage
    by_cases hc : containsAnyKw damage_keywords (pyLower m).data = true
    · exfalso
      unfold updDamage at h
      by_cases h2 : isFilled app.damage = true
      · rw [if_pos h2] at h
        rw [h] at h1; rw [h2] at h1; exact Bool.true_eq_false.mp h1
      · rw [if_neg h2, if_pos hc] at h
        have hf := filled_of_dmg_cond m hc
        rw [show ({ app with damage := some m } : IncidentReport).damage = some m
          from rfl] at h
        rw [h] at h1; rw [hf] at h1; exact Bool.true_eq_false.mp h1
    · simp [h1, hc]

lemma updInjuries_stable (m : String) (app app2 : IncidentReport)
    (h : app2.injuries = (updInjuries m app).injuries) :
    updInjuries m app2 = app2 := by
  by_cases h1 : isFilled app2.injuries = true
  · exact updInjuries_of_filled m app2 h1
  · simp only [Bool.not_eq_true] at h1
    unfold updInjuries at h ⊢
    by_cases h2 : isFilled app.injuries = true
    · rw [if_pos h2] at h
      rw [h] at h1; rw [h2] at h1; exact absurd h1 (by decide)
    · rw [if_neg h2] at h
      by_cases hc2 : (hasSub "нет пострадавших" (pyLower m) ||
          hasSub "никто не пострадал" (pyLower m)) = true
      · rw [if_pos hc2] at h
        rw [show ({ app with injuries := some "Нет пострадавших" } :
          IncidentReport).injuries = some "Нет пострадавших" from rfl] at h
        rw [h] at h1; exact absurd h1 (by decide)
      · rw [if_neg hc2] at h
        by_cases hc3 : (hasSub "пострадал" (pyLower m) || hasSub "ранен" (pyLower m)) = true
        · rw [if_pos hc3] at h
          rw [show ({ app with injuries := some "Есть пострадавшие" } :
            IncidentReport).injuries = some "Есть пострадавшие" from rfl] at h
          rw [h] at h1; exact absurd h1 (by decide)
        · simp [h1, hc2, hc3]

lemma updContact_stable (m : String) (app app2 : IncidentReport)
    (h : app2.contact = (updContact m app).contact) :
    updContact m app2 = app2 := by
  by_cases h1 : isFilled app2.contact = true
  · exact updContact_of_filled m app2 h1
  · simp only [Bool.not_eq_true] at h1
    unfold updContact at h ⊢
    cases hf : findPhone m.data with
    | none => simp [h1, hf]
    | some r =>
      exfalso
      by_cases h2 : isFilled app.contact = true
      · rw [if_pos h2] at h
        rw [h] at h1; rw [h2] at h1; exact Bool.true_eq_false.mp h1
      · rw [if_neg h2, hf] at h
        rw [show ({ app with contact := some ⟨r⟩ } : IncidentReport).contact
          = some ⟨r⟩ from rfl] at h
        have hr : r ≠ [] := findPhone_ne_nil m.data r hf
        have hfil : isFilled (some (⟨r⟩ : String)) = true := by
          cases r with
          | nil => exact absurd rfl hr
          | cons a t => simp [isFilled]
        rw [h] at h1; rw [hfil] at h1; exact Bool.true_eq_false.mp h1

/-! ### Field projections of the whole extractor -/

lemma extract_location_eq (m : String) (app : IncidentReport) :
    (extract_info_from_message m app).location = (updLocation m app).location := by
  unfold extract_info_from_message; simp

lemma extract_participants_eq (m : String) (app : IncidentReport) :
    (extract_info_from_message m app).participants
      = (updParticipants m (updLocation m app)).participants := by
  unfold extract_info_from_message; simp

lemma extract_damage_eq (m : String) (app : IncidentReport) :
    (extract_info_from_message m app).damage
      = (updDamage m (updParticipants m (updLocation m app))).damage := by
  unfold extract_info_from_message; simp

lemma extract_injuries_eq (m : String) (app : IncidentReport) :
    (extract_info_from_message m app).injuries
      = (updInjuries m (updDamage m (updParticipants m (updLocation m app)))).injuries := by
  unfold extract_info_from_message; simp

lemma extract_contact_eq (m : String) (app : IncidentReport) :
    (extract_info_from_message m app).contact
      = (updContact m (updInjuries m (updDamage m
          (updParticipants m (updLocation m app))))).contact := rfl

/-! ### The extractor never touches a filled field -/

lemma extract_keeps_location (m : String) (app : IncidentReport)
    (h : isFilled app.location = true) :
    (extract_info_from_message m app).location = app.location := by
  rw [extract_location_eq, updLocation_of_filled m app h]

lemma extract_keeps_participants (m : String) (app : IncidentReport)
    (h : isFilled app.participants = true) :
    (extract_info_from_message m app).participants = app.participants := by
  have h2 : isFilled (updLocation m app).participants = true := by
    rw [updLocation_participants]; exact h
  rw [extract_participants_eq, updParticipants_of_filled m _ h2, updLocation_participants]

lemma extract_keeps_damage (m : String) (app : IncidentReport)
    (h : isFilled app.damage = true) :
    (extract_info_from_message m app).damage = app.damage := by
  have h2 : isFilled (updParticipants m (updLocation m app)).damage = true := by
    rw [updParticipants_damage, updLocation_damage]; exact h
  rw [extract_damage_eq, updDamage_of_filled m _ h2, updParticipants_damage,
    updLocation_damage]

lemma extract_keeps_injuries (m : String) (app : IncidentReport)
    (h : isFilled app.injuries = true) :
    (extract_info_from_message m app).injuries = app.injuries := by
  have h2 : isFilled (updDamage m (updParticipants m (updLocation m app))).injuries
      = true := by
    rw [updDamage_injuries, updParticipants_injuries, updLocation_injuries]; exact h
  rw [extract_injuries_eq, updInjuries_of_filled m _ h2, updDamage_injuries,
    updParticipants_injuries, updLocation_injuries]

lemma extract_keeps_contact (m : String) (app : IncidentReport)
    (h : isFilled app.contact = true) :
    (extract_info_from_message m app).contact = app.contact := by
  have h2 : isFilled (updInjuries m (updDamage m (updParticipants m
      (updLocation m app)))).contact = true := by
    rw [updInjuries_contact, updDamage_contact, updParticipants_contact,
      updLocation_contact]; exact h
  rw [extract_contact_eq, updContact_of_filled m _ h2, updInjuries_contact,
    updDamage_contact, updParticipants_contact, updLocation_contact]

/-! ### Idempotence of the extractor -/

lemma extract_idem (m : String) (app : IncidentReport) :
    extract_info_from_message m (extract_info_from_message m app)
      = extract_info_from_message m app := by
  have e1 : updLocation m (extract_info_from_message m app)
      = extract_info_from_message m app :=
    updLocation_stable m app _ (extract_location_eq m app)
  have e2 : updParticipants m (extract_info_from_message m app)
      = extract_info_from_message m app :=
    updParticipants_stable m (updLocation m app) _ (extract_participants_eq m app)
  have e3 : updDamage m (extract_info_from_message m app)
      = extract_info_from_message m app :=
    updDamage_stable m (updParticipants m (updLocation m app)) _
      (extract_damage_eq m app)
  have e4 : updInjuries m (extract_info_from_message m app)
      = extract_info_from_message m app :=
    updInjuries_stable m (updDamage m (updParticipants m (updLocation m app))) _
      (extract_injuries_eq m app)
  have e5 : updContact m (extract_info_from_message m app)
      = extract_info_from_message m app :=
    updContact_stable m
      (updInjuries m (updDamage m (updParticipants m (updLocation m app)))) _
      (extract_contact_eq m app)
  show updContact m (updInjuries m (updDamage m (updParticipants m
    (updLocation m (extract_info_from_message m app)))))
      = extract_info_from_message m app
  rw [e1, e2, e3, e4, e5]

/-! ### The broadcast loop delivers exactly to the recipients whose send
succeeds, attempting every one -/

lemma broadcastLoop_eq (ok : Int → Bool) (l : List Int) :
    broadcastLoop ok l = (l.filter ok, (l.filter ok).length, l.length) := by
  induction l with
  | nil => rfl
  | cons a rest ih =>
    simp only [broadcastLoop, ih]
    cases hok : ok a with
    | true => simp [List.filter_cons, hok]
    | false => simp [List.filter_cons, hok]

/-- The message of the specification's extraction example. -/
def c2Message : String :=
  "авария на улице Ленина, два автомобиля, никто не пострадал, +79001234567"

/-- A fresh report, as `start` creates it. -/
def emptyReport : IncidentReport :=
  { timestamp := "2024-01-01T00:00:00", location := none, participants := none,
    damage := none, injuries := none, photosCount := 0, contact := none }

/-! ## Claims -/

/-- C1: on a finish-equivalent message in the AI chat, the session moves to
the confirm state iff both `location` and `contact` are set (truthy);
otherwise it stays in the AI chat with the report unchanged, and the
warning names exactly the missing required fields — with `contact` unset it
names the phone.  Equivalently, `submittable` holds iff `location` and
`contact` are non-empty, regardless of the other fields. -/
theorem claim_C1_finish_requires_location_and_contact (msg : String)
    (app : IncidentReport) (h : isFinishCommand msg = true) :
    ((ai_chat_step msg app).1 = BotState.confirm ↔
      (isFilled app.location = true ∧ isFilled app.contact = true)) ∧
    ((ai_chat_step msg app).1 = BotState.confirm ∨
      (ai_chat_step msg app).1 = BotState.aiChat) ∧
    (ai_chat_step msg app).2.1 = app ∧
    (("место ДТП" ∈ (ai_chat_step msg app).2.2) ↔ isFilled app.location = false) ∧
    (("телефон" ∈ (ai_chat_step msg app).2.2) ↔ isFilled app.contact = false) ∧
    (∀ x ∈ (ai_chat_step msg app).2.2, x = "место ДТП" ∨ x = "телефон") ∧
    submittable app = (isFilled app.location && isFilled app.contact) := by
  have hstep : ai_chat_step msg app
      = ((finish_ai_application app).1, app, (finish_ai_application app).2) := by
    unfold ai_chat_step; rw [if_pos h]
  rw [hstep]
  cases hl : isFilled app.location <;> cases hc : isFilled app.contact <;>
    simp [finish_ai_application, missingFields, submittable, hl, hc]

/-- Witness for C1: `/finish` with location set but contact unset stays in
the AI chat and the warning names the phone. -/
theorem claim_C1_witness :
    isFinishCommand "/finish" = true ∧
    (("телефон" ∈ (ai_chat_step "/finish"
        (⟨"t", some "ул. Мира 1", none, none, none, 0, none⟩ : IncidentReport)).2.2) ↔
      isFilled (⟨"t", some "ул. Мира 1", none, none, none, 0, none⟩ :
        IncidentReport).contact = false) :=
  ⟨by decide,
    (claim_C1_finish_requires_location_and_contact "/finish"
      ⟨"t", some "ул. Мира 1", none, none, none, 0, none⟩ (by decide)).2.2.2.2.1⟩

/-- C2 counterexample: on the specification's example message, the address
block does not fire — the declined form "улице" contains neither "улица"
nor "ул." nor any other address keyword as a substring — so `location`
stays unset, contradicting the claim that all of location, participants,
injuries and contact are populated in one pass. -/
theorem claim_C2_counterexample :
    (extract_info_from_message c2Message emptyReport).location = none ∧
    (extract_info_from_message c2Message emptyReport).location ≠ some c2Message := by
  decide

/-- C2 amended: on the example message with an empty report, one pass sets
participants to the two-vehicles literal, injuries to the no-injuries
literal and contact to "+79001234567", while location and damage both
remain unset (no address or damage keyword occurs in the message). -/
theorem claim_C2_amended_extraction :
    extract_info_from_message c2Message emptyReport =
      { timestamp := "2024-01-01T00:00:00", location := none,
        participants := some "2 автомобиля", damage := none,
        injuries := some "Нет пострадавших", photosCount := 0,
        contact := some "+79001234567" } := by
  decide

/-- C3: the field extractor never overwrites a field that is already set
(truthy): each block is guarded by its field being unset, so any message
leaves filled fields unchanged, and applying the extractor twice with the
same message equals applying it once. -/
theorem claim_C3_extractor_idempotent (m m2 : String) (app : IncidentReport) :
    (isFilled app.location = true →
      (extract_info_from_message m2 app).location = app.location) ∧
    (isFilled app.participants = true →
      (extract_info_from_message m2 app).participants = app.participants) ∧
    (isFilled app.damage = true →
      (extract_info_from_message m2 app).damage = app.damage) ∧
    (isFilled app.injuries = true →
      (extract_info_from_message m2 app).injuries = app.injuries) ∧
    (isFilled app.contact = true →
      (extract_info_from_message m2 app).contact = app.contact) ∧
    extract_info_from_message m (extract_info_from_message m app)
      = extract_info_from_message m app :=
  ⟨extract_keeps_location m2 app, extract_keeps_participants m2 app,
   extract_keeps_damage m2 app, extract_keeps_injuries m2 app,
   extract_keeps_contact m2 app, extract_idem m app⟩

/-- Witness for C3: a report with location already set keeps it verbatim
when the extractor runs on a message full of address keywords. -/
theorem claim_C3_witness :
    isFilled (⟨"t", some "ул. Мира 1", none, none, none, 0, none⟩ :
      IncidentReport).location = true ∧
    (extract_info_from_message "дом 5, улица Садовая"
      (⟨"t", some "ул. Мира 1", none, none, none, 0, none⟩ :
        IncidentReport)).location = some "ул. Мира 1" :=
  ⟨by decide,
    (claim_C3_extractor_idempotent "дом 5, улица Садовая" "дом 5, улица Садовая"
      ⟨"t", some "ул. Мира 1", none, none, none, 0, none⟩).1 (by decide)⟩

/-- C4: on a present numeric target, the admin remove operation rejects
exactly when the target is the acting caller and the roster has a single
entry; in every other case the target's first occurrence is removed and
the resulting roster persisted.  In particular roster [42] / actor 42 /
target 42 is rejected while roster [42, 7] / actor 42 / target 42 removes. -/
theorem claim_C4_admin_remove_guard (admins : List Int) (actorId targetId : Int)
    (h : targetId ∈ admins) :
    (admin_remove_handler admins actorId targetId = .rejectedLastSelf ↔
      (targetId = actorId ∧ admins.length = 1)) ∧
    (¬(targetId = actorId ∧ admins.length = 1) →
      admin_remove_handler admins actorId targetId
        = .removed (admins.erase targetId)) ∧
    admin_remove_handler [42] 42 42 = .rejectedLastSelf ∧
    admin_remove_handler [42, 7] 42 42 = .removed [7] := by
  refine ⟨?_, ?_, by decide, by decide⟩
  · unfold admin_remove_handler
    rw [if_pos h]
    constructor
    · intro he
      by_contra hcon
      rw [if_neg hcon] at he
      exact absurd he (by simp)
    · intro hcond
      rw [if_pos hcond]
  · intro hcon
    unfold admin_remove_handler
    rw [if_pos h, if_neg hcon]

/-- Witness for C4: removing admin 42 from the two-entry roster [42, 7] as
actor 42 succeeds. -/
theorem claim_C4_witness :
    (42 : Int) ∈ ([42, 7] : List Int) ∧
    admin_remove_handler [42, 7] 42 42 = .removed (([42, 7] : List Int).erase 42) :=
  ⟨by decide,
    (claim_C4_admin_remove_guard [42, 7] 42 42 (by decide)).2.1 (by decide)⟩

/-- C5: on a non-empty roster the broadcaster attempts every recipient
independently: a failing delivery never prevents the remaining attempts,
every recipient whose send succeeds is delivered to, and the reported
count is the number of successes out of the roster size — e.g. a 3-member
roster with one throwing delivery yields 2 of 3. -/
theorem claim_C5_broadcast_independent (admins : List Int) (ok : Int → Bool)
    (h : admins ≠ []) :
    (send_to_admins admins ok).delivered = admins.filter ok ∧
    (send_to_admins admins ok).successCount = (admins.filter ok).length ∧
    (send_to_admins admins ok).attempts = admins.length ∧
    (send_to_admins admins ok).total = admins.length ∧
    (∀ a ∈ admins, ok a = true → a ∈ (send_to_admins admins ok).delivered) ∧
    (send_to_admins [1, 2, 3] (fun a => a != 2)).successCount = 2 ∧
    (send_to_admins [1, 2, 3] (fun a => a != 2)).delivered = [1, 3] ∧
    (send_to_admins [1, 2, 3] (fun a => a != 2)).total = 3 := by
  have hne : admins.isEmpty = false := by
    cases admins with
    | nil => exact absurd rfl h
    | cons a t => rfl
  unfold send_to_admins
  rw [hne, broadcastLoop_eq]
  refine ⟨by simp, by simp, by simp, by simp, ?_, by decide, by decide, by decide⟩
  intro a ha hok
  simp only [Bool.false_eq_true, if_false]
  exact List.mem_filter.mpr ⟨ha, hok⟩

/-- Witness for C5: broadcasting to [1, 2, 3] where the send to 2 throws
still delivers to 1 and 3 and counts 2 successes. -/
theorem claim_C5_witness :
    ([1, 2, 3] : List Int) ≠ [] ∧
    (send_to_admins [1, 2, 3] (fun a => a != 2)).successCount
      = (([1, 2, 3] : List Int).filter (fun a => a != 2)).length :=
  ⟨by decide,
    (claim_C5_broadcast_independent [1, 2, 3] (fun a => a != 2) (by decide)).2.1⟩

/-- C6: confirming a report with an empty roster performs zero delivery
attempts, only takes the warning branch, and still shows the submitting
user the very same success acknowledgment as with a non-empty roster. -/
theorem claim_C6_empty_roster_broadcast (choice : String) (ok : Int → Bool)
    (admins2 : List Int) (h : hasSub "✅" choice = true) (h2 : admins2 ≠ []) :
    (confirm_application choice [] ok).sent =
      some { delivered := [], successCount := 0, attempts := 0, total := 0,
             warnedEmpty := true } ∧
    (confirm_application choice [] ok).reply = successAck ∧
    (confirm_application choice [] ok).next = .ended ∧
    (confirm_application choice admins2 ok).reply = successAck ∧
    (confirm_application choice [] ok).reply
      = (confirm_application choice admins2 ok).reply := by
  unfold confirm_application
  rw [h]
  simp [send_to_admins]

/-- Witness for C6: the affirmative button text with an empty roster still
acknowledges success. -/
theorem claim_C6_witness :
    hasSub "✅" "✅ Подтвердить и отправить" = true ∧ ([5] : List Int) ≠ [] ∧
    (confirm_application "✅ Подтвердить и отправить" [] (fun _ => true)).reply
      = successAck :=
  ⟨by decide, by decide,
    (claim_C6_empty_roster_broadcast "✅ Подтвердить и отправить" (fun _ => true)
      [5] (by decide) (by decide)).2.1⟩

/-- C7: the request assembled for the text-generation backend consists of
the system prompt, then exactly the most recent 10 turns of the history
(all of it when it has 10 or fewer), then the new user message; every
context turn comes from a suffix of the history, so older turns are never
included. -/
theorem claim_C7_history_window (sp : String) (hist : List ChatTurn) (msg : String) :
    ((get_ai_messages sp hist msg).drop 1).dropLast
      = hist.drop (hist.length - 10) ∧
    (((get_ai_messages sp hist msg).drop 1).dropLast).length = min hist.length 10 ∧
    List.IsSuffix (((get_ai_messages sp hist msg).drop 1).dropLast) hist ∧
    (hist.length ≤ 10 → ((get_ai_messages sp hist msg).drop 1).dropLast = hist) ∧
    (∀ t ∈ ((get_ai_messages sp hist msg).drop 1).dropLast, t ∈ hist) ∧
    (get_ai_messages sp hist msg).getLast? = some ⟨"user", msg⟩ ∧
    (get_ai_messages sp hist msg).head? = some ⟨"system", sp⟩ := by
  have hctx : ((get_ai_messages sp hist msg).drop 1).dropLast
      = hist.drop (hist.length - 10) := by
    unfold get_ai_messages
    simp
  refine ⟨hctx, ?_, ?_, ?_, ?_, ?_, rfl⟩
  · rw [hctx]; simp only [List.length_drop]; omega
  · rw [hctx]; exact List.drop_suffix _ _
  · intro hle; rw [hctx, Nat.sub_eq_zero_of_le hle, List.drop_zero]
  · intro t ht; rw [hctx] at ht; exact (List.drop_suffix _ _).subset ht
  · unfold get_ai_messages
    rw [← List.cons_append, List.getLast?_concat]

/-- Witness for C7: a 2-turn history is forwarded in full. -/
theorem claim_C7_witness :
    ([⟨"user", "a"⟩, ⟨"assistant", "b"⟩] : List ChatTurn).length ≤ 10 ∧
    ((get_ai_messages "s" [⟨"user", "a"⟩, ⟨"assistant", "b"⟩] "hi").drop 1).dropLast
      = [⟨"user", "a"⟩, ⟨"assistant", "b"⟩] :=
  ⟨by decide,
    (claim_C7_history_window "s" [⟨"user", "a"⟩, ⟨"assistant", "b"⟩]
      "hi").2.2.2.1 (by decide)⟩

/-- C8: for any non-empty inputs, the guided form visits exactly
Location, Participants, Damage, Injuries, Contact, Confirm in order, with
no skips or repeats, each handler storing its message verbatim into its
field and returning precisely the next state. -/
theorem claim_C8_guided_order (m1 m2 m3 m4 m5 : String) (app : IncidentReport)
    (h1 : m1 ≠ "") (h2 : m2 ≠ "") (h3 : m3 ≠ "") (h4 : m4 ≠ "") (h5 : m5 ≠ "") :
    BotState.location :: (guidedRun [m1, m2, m3, m4, m5] .location app).1
      = specGuidedOrder ∧
    specGuidedOrder.Nodup ∧
    (guidedRun [m1, m2, m3, m4, m5] .location app).2.1 = .confirm ∧
    (guidedRun [m1, m2, m3, m4, m5] .location app).2.2 =
      { app with location := some m1, participants := some m2, damage := some m3,
                 injuries := some m4, contact := some m5 } ∧
    guided_step .location m1 app = (.participants, { app with location := some m1 }) ∧
    guided_step .participants m2 app = (.damage, { app with participants := some m2 }) ∧
    guided_step .damage m3 app = (.injuries, { app with damage := some m3 }) ∧
    guided_step .injuries m4 app = (.contact, { app with injuries := some m4 }) ∧
    guided_step .contact m5 app = (.confirm, { app with contact := some m5 }) :=
  ⟨rfl, by decide, rfl, rfl, rfl, rfl, rfl, rfl, rfl⟩

/-- Witness for C8: a concrete five-message guided session ends in the
confirm state. -/
theorem claim_C8_witness :
    ("ул. Ленина 1" : String) ≠ "" ∧
    (guidedRun ["ул. Ленина 1", "2 автомобиля", "помят бампер", "Нет пострадавших",
      "+79990000000"] .location
      (⟨"t", none, none, none, none, 0, none⟩ : IncidentReport)).2.1 = .confirm :=
  ⟨by decide,
    (claim_C8_guided_order "ул. Ленина 1" "2 автомобиля" "помят бампер"
      "Нет пострадавших" "+79990000000" ⟨"t", none, none, none, none, 0, none⟩
      (by decide) (by decide) (by decide) (by decide) (by decide)).2.2.1⟩

/-- C9: with `participants` unset, any message containing the character "2"
anywhere in the raw text — a phone number or house number included, and
even when "3" or "три" is also present — sets `participants` to the
two-vehicles literal, since that branch is checked first. -/
theorem claim_C9_two_before_three (m : String) (app : IncidentReport)
    (h1 : isFilled app.participants = false) (h2 : hasSub "2" m = true) :
    (extract_info_from_message m app).participants = some "2 автомобиля" := by
  rw [extract_participants_eq]
  have hl : isFilled (updLocation m app).participants = false := by
    rw [updLocation_participants]; exact h1
  unfold updParticipants
  rw [hl, h2]
  simp

/-- Witness for C9: a message with both "три" and the digits "123" books
two vehicles. -/
theorem claim_C9_witness :
    isFilled (none : Option String) = false ∧ hasSub "2" "три машины, дом 123" = true ∧
    (extract_info_from_message "три машины, дом 123"
      (⟨"t", none, none, none, none, 0, none⟩ : IncidentReport)).participants
        = some "2 автомобиля" :=
  ⟨by decide, by decide,
    claim_C9_two_before_three "три машины, дом 123"
      ⟨"t", none, none, none, none, 0, none⟩ (by decide) (by decide)⟩

/-- C10: the never-empty guard only covers self-removal — a sole roster
entry can be removed by a different acting caller, leaving an empty roster
to be persisted. -/
theorem claim_C10_roster_can_empty (a actorId : Int) (h : actorId ≠ a) :
    admin_remove_handler [a] actorId a = .removed [] := by
  unfold admin_remove_handler
  rw [if_pos (show a ∈ [a] by simp), if_neg (fun hcon => h hcon.1.symm)]
  simp

/-- Witness for C10: actor 7 removes sole admin 42, emptying the roster. -/
theorem claim_C10_witness :
    (7 : Int) ≠ 42 ∧ admin_remove_handler [42] 7 42 = .removed [] :=
  ⟨by decide, claim_C10_roster_can_empty 42 7 (by decide)⟩

end HelpRoad
